import Mathlib

/-!
# Proxy camera driver (`src/vcam.c`): lifecycle and forwarding operations

A shallow embedding of the file operations of the virtual camera driver:
`vcam_open`, `vcam_release`, `vcam_read`, `vcam_mmap`,
`vcam_handle_real_camera_ioctl` and `vcam_ioctl`.

Conventions of the embedding.

* The three file-scope variables `real_camera_file`, `device_open_count` and
  `vcam_mutex` form the record `State`.  A pointer is the natural number of its
  address on an LP64 kernel, `NULL` being `0`.
* `int` is a 32-bit and `long`/`ssize_t` a 64-bit two's complement integer;
  the kernel is built with wrapping signed arithmetic, so `device_open_count++`
  wraps.
* The kernel services the driver calls (`filp_open`, `kzalloc`, `kernel_read`,
  `copy_to_user`, the file's `f_op->mmap`, `vfs_ioctl`) are parameters of the
  operations: every theorem quantifies over their behaviour.
* Every operation returns, next to its C return value and the new `State`, the
  list of calls it made on the real camera (`BackendCall`), in program order.
* The unused `struct file *file` (and `loff_t *ppos`) parameters and the
  `pr_info`/`pr_err` log lines are left out.
-/

namespace Vcam

/-! ## Kernel constants and helpers the source relies on -/

/-- The null pointer. -/
def NULL : Nat := 0

/-- Errno `EIO` of `errno-base.h`. -/
def EIO : Int := 5
/-- Errno `ENOMEM` of `errno-base.h`. -/
def ENOMEM : Int := 12
/-- Errno `EFAULT` of `errno-base.h`. -/
def EFAULT : Int := 14
/-- Errno `EBUSY` of `errno-base.h`. -/
def EBUSY : Int := 16
/-- Errno `EINVAL` of `errno-base.h`. -/
def EINVAL : Int := 22

/-- Largest errno an error pointer can carry (`MAX_ERRNO` of `linux/err.h`). -/
def MAX_ERRNO : Nat := 4095

/-- Open flag `O_RDWR` (`asm-generic/fcntl.h`). -/
def O_RDWR : Nat := 0o2
/-- Open flag `O_NONBLOCK` (`asm-generic/fcntl.h`). -/
def O_NONBLOCK : Nat := 0o4000

/-- Largest value of a C `int`. -/
def INT_MAX : Int := 2147483647

/-- Conversion of an integer to the 32-bit `int` (two's complement wrap). -/
def toInt32 (x : Int) : Int := (x + 2147483648) % 4294967296 - 2147483648

/-- Conversion of a pointer to `long`, the body of `PTR_ERR` in `linux/err.h`. -/
def PTR_ERR (p : Nat) : Int :=
  if p % 18446744073709551616 < 9223372036854775808 then
    ((p % 18446744073709551616 : Nat) : Int)
  else
    ((p % 18446744073709551616 : Nat) : Int) - 18446744073709551616

/-- Conversion of a `long` to a pointer, the body of `ERR_PTR` in `linux/err.h`. -/
def ERR_PTR (error : Int) : Nat := (error % 18446744073709551616).toNat

/-- Test `IS_ERR` of `linux/err.h`:
`(unsigned long)p >= (unsigned long)-MAX_ERRNO`. -/
def IS_ERR (p : Nat) : Bool :=
  decide (18446744073709551616 - MAX_ERRNO ≤ p % 18446744073709551616)

/-! ## State of the driver -/

/-- File-scope variables of `vcam.c`. -/
structure State where
  /-- Pointer `static struct file *real_camera_file`, `NULL` when unbound. -/
  real_camera_file : Nat
  /-- Counter `static int device_open_count`. -/
  device_open_count : Int
  /-- Mutex `vcam_mutex`: `true` while some caller holds it. -/
  vcam_mutex : Bool
deriving DecidableEq, Repr

/-- State right after module load: `real_camera_file = NULL`,
`device_open_count = 0`, mutex unlocked. -/
def State.init : State :=
  { real_camera_file := NULL, device_open_count := 0, vcam_mutex := false }

/-- Path `static const char *real_device_path`. -/
def real_device_path : String := "/dev/video0"

/-- One call made on the real camera, with its arguments
(and, for `filp_open`, the pointer it returned). -/
inductive BackendCall where
  | filp_open (path : String) (flags : Nat) (mode : Nat) (result : Nat)
  | filp_close (filp : Nat)
  | kernel_read (filp : Nat) (count : Nat)
  | mmap (filp : Nat) (vma : Nat)
  | vfs_ioctl (filp : Nat) (cmd : Nat) (arg : Nat)
deriving DecidableEq, Repr

/-- What an operation leaves behind: the C return value, the driver state and
the calls made on the real camera. -/
structure Outcome where
  ret : Int
  state : State
  calls : List BackendCall
deriving DecidableEq, Repr

/-! ## `vcam_open` and `vcam_release` -/

/-- Function `vcam_open` (`vcam.c` lines 24-48).  The parameter `filp_open` is
the kernel's `filp_open` as it answers during this call. -/
def vcam_open (filp_open : String → Nat → Nat → Nat) (s : State) : Outcome :=
  -- if (!mutex_trylock(&vcam_mutex)) return -EBUSY;
  if s.vcam_mutex then
    { ret := - EBUSY, state := s, calls := [] }
  else
    let s1 : State := { s with vcam_mutex := true }
    if s1.real_camera_file = NULL then
      let f := filp_open real_device_path (O_RDWR ||| O_NONBLOCK) 0
      let c := [BackendCall.filp_open real_device_path (O_RDWR ||| O_NONBLOCK) 0 f]
      if IS_ERR f then
        -- mutex_unlock(&vcam_mutex); return PTR_ERR(f);
        { ret := toInt32 (PTR_ERR f), state := { s1 with vcam_mutex := false }, calls := c }
      else
        -- real_camera_file = f; device_open_count++; mutex_unlock(&vcam_mutex);
        let s2 : State := { s1 with real_camera_file := f }
        let s3 : State := { s2 with device_open_count := toInt32 (s2.device_open_count + 1) }
        { ret := 0, state := { s3 with vcam_mutex := false }, calls := c }
    else
      -- device_open_count++; mutex_unlock(&vcam_mutex);
      let s3 : State := { s1 with device_open_count := toInt32 (s1.device_open_count + 1) }
      { ret := 0, state := { s3 with vcam_mutex := false }, calls := [] }

/-- Function `vcam_release` (`vcam.c` lines 51-68).  `mutex_lock` sleeps until
the mutex is free: called while another caller holds it, the function does not
proceed, which is the result `none`. -/
def vcam_release (s : State) : Option Outcome :=
  -- mutex_lock(&vcam_mutex);
  if s.vcam_mutex then
    none
  else
    let s1 : State := { s with vcam_mutex := true }
    -- if (real_camera_file) { filp_close(real_camera_file, NULL); real_camera_file = NULL; }
    let c := if s1.real_camera_file ≠ NULL then [BackendCall.filp_close s1.real_camera_file] else []
    let s2 : State := if s1.real_camera_file ≠ NULL then { s1 with real_camera_file := NULL } else s1
    -- if (device_open_count > 0) device_open_count--;
    let s3 : State :=
      if s2.device_open_count > 0 then
        { s2 with device_open_count := toInt32 (s2.device_open_count - 1) }
      else s2
    -- mutex_unlock(&vcam_mutex); return 0;
    some { ret := 0, state := { s3 with vcam_mutex := false }, calls := c }

/-! ## Forwarding operations -/

/-- Kernel services used by `vcam_read`, as they answer during one call. -/
structure ReadEnv where
  /-- Whether `kzalloc(size, GFP_KERNEL)` returns a buffer (`false`: `NULL`). -/
  kzalloc : Nat → Bool
  /-- Call `kernel_read(filp, buffer, count, &filp->f_pos)`: the return value and
  the bytes it stored at the start of `buffer`. -/
  kernel_read : Nat → Nat → Int × List Nat
  /-- Call `copy_to_user(to, from, n)`: the number of bytes that could NOT be
  copied, as a function of `n`. -/
  copy_to_user : Nat → Nat

/-- Effect of `copy_to_user(to, from, n)` on the user memory at `to` when
`uncopied` bytes could not be copied: the first `n - uncopied` bytes of `src`
replace those of `dst`. -/
def copy_to_user (uncopied : Nat) (dst src : List Nat) (n : Nat) : List Nat :=
  src.take (n - uncopied) ++ dst.drop (n - uncopied)

/-- Result of `vcam_read`: the outcome and the user memory at `user_buffer`. -/
structure ReadOutcome where
  out : Outcome
  user_buffer : List Nat
deriving DecidableEq, Repr

/-- Function `vcam_read` (`vcam.c` lines 71-100).  `user_buffer` is the content
of the caller's memory at the destination address, `count` the requested
length. -/
def vcam_read (env : ReadEnv) (s : State) (user_buffer : List Nat) (count : Nat) :
    ReadOutcome :=
  if s.real_camera_file = NULL then
    { out := { ret := - EIO, state := s, calls := [] }, user_buffer := user_buffer }
  else if !env.kzalloc count then
    -- buffer = kzalloc(count, GFP_KERNEL); if (!buffer) return -ENOMEM;
    { out := { ret := - ENOMEM, state := s, calls := [] }, user_buffer := user_buffer }
  else
    let buffer0 : List Nat := List.replicate count 0
    -- ret = kernel_read(real_camera_file, buffer, count, &real_camera_file->f_pos);
    let r := env.kernel_read s.real_camera_file count
    let ret := r.1
    let buffer := r.2 ++ buffer0.drop r.2.length
    let c := [BackendCall.kernel_read s.real_camera_file count]
    if ret < 0 then
      { out := { ret := ret, state := s, calls := c }, user_buffer := user_buffer }
    else
      -- if (copy_to_user(user_buffer, buffer, ret)) return -EFAULT;
      let uncopied := env.copy_to_user ret.toNat
      let user1 := copy_to_user uncopied user_buffer buffer ret.toNat
      if uncopied ≠ 0 then
        { out := { ret := - EFAULT, state := s, calls := c }, user_buffer := user1 }
      else
        { out := { ret := ret, state := s, calls := c }, user_buffer := user1 }

/-- Function `vcam_mmap` (`vcam.c` lines 103-124).  `f_op_mmap filp` is the
`mmap` member of `filp->f_op`: `none` for a null function pointer, otherwise
the function from the `vma` to the `int` it returns. -/
def vcam_mmap (f_op_mmap : Nat → Option (Nat → Int)) (s : State) (vma : Nat) : Outcome :=
  if s.real_camera_file = NULL then
    { ret := - EIO, state := s, calls := [] }
  else
    match f_op_mmap s.real_camera_file with
    | none => { ret := - EINVAL, state := s, calls := [] }
    | some real_mmap =>
      let ret := real_mmap vma
      let c := [BackendCall.mmap s.real_camera_file vma]
      if ret < 0 then
        { ret := ret, state := s, calls := c }
      else
        { ret := 0, state := s, calls := c }

/-- Function `vcam_handle_real_camera_ioctl` (`vcam.c` lines 127-141).
`vfs_ioctl filp cmd arg` is the `long` the kernel's `vfs_ioctl` returns. -/
def vcam_handle_real_camera_ioctl (vfs_ioctl : Nat → Nat → Nat → Int) (s : State)
    (cmd arg : Nat) : Outcome :=
  if s.real_camera_file = NULL then
    { ret := - EIO, state := s, calls := [] }
  else
    let ret := vfs_ioctl s.real_camera_file cmd arg
    let c := [BackendCall.vfs_ioctl s.real_camera_file cmd arg]
    if ret < 0 then
      { ret := ret, state := s, calls := c }
    else
      { ret := ret, state := s, calls := c }

/-- Function `vcam_ioctl` (`vcam.c` lines 143-146). -/
def vcam_ioctl (vfs_ioctl : Nat → Nat → Nat → Int) (s : State) (cmd arg : Nat) : Outcome :=
  vcam_handle_real_camera_ioctl vfs_ioctl s cmd arg

/-! ## Sequences of calls -/

/-- One completed call of the lifecycle operations: `attemptOpen f` is a call of
`vcam_open` during which `filp_open`, if called, returns the pointer `f`;
`release` is a call of `vcam_release`. -/
inductive Action where
  | attemptOpen (f : Nat)
  | release
deriving DecidableEq, Repr

/-- Driver state together with every call made on the real camera so far. -/
structure World where
  state : State
  trace : List BackendCall
deriving DecidableEq, Repr

/-- World right after module load. -/
def World.init : World := { state := State.init, trace := [] }

/-- Effect of one call on the world; `none` when the call does not proceed. -/
def step (w : World) : Action → Option World
  | Action.attemptOpen f =>
    let r := vcam_open (fun _ _ _ => f) w.state
    some { state := r.state, trace := w.trace ++ r.calls }
  | Action.release =>
    match vcam_release w.state with
    | none => none
    | some r => some { state := r.state, trace := w.trace ++ r.calls }

/-- Effect of a sequence of calls, each one completing before the next starts. -/
def run (w : World) : List Action → Option World
  | [] => some w
  | a :: rest =>
    match step w a with
    | none => none
    | some w1 => run w1 rest

/-- Bookkeeping of the handles of the real camera: a `filp_open` that returns
the address of a file (neither an error pointer nor `NULL`) adds it,
`filp_close` removes it, the other calls change nothing. -/
def track (live : List Nat) : BackendCall → List Nat
  | BackendCall.filp_open _ _ _ f => if IS_ERR f || f == NULL then live else live ++ [f]
  | BackendCall.filp_close f => live.erase f
  | _ => live

/-- Handles of the real camera opened and not yet closed after the calls of
`trace`. -/
def liveHandles (trace : List BackendCall) : List Nat :=
  trace.foldl track []

/-- Contract of the kernel's `filp_open`: it returns an error pointer or the
address of a `struct file`, never `NULL`. -/
def filpOpenContract : Action → Bool
  | Action.attemptOpen f => decide (f ≠ NULL ∧ f < 18446744073709551616)
  | Action.release => true

/-- Whether `p` holds of the state and the call, at every call of the sequence
that is reached. -/
def holdsAtEachCall (p : State → Action → Bool) (w : World) : List Action → Bool
  | [] => true
  | a :: rest =>
    p w.state a &&
      match step w a with
      | none => true
      | some w1 => holdsAtEachCall p w1 rest

/-- The call executes `device_open_count++` on the value `INT_MAX`. -/
def counterOverflows (s : State) : Action → Bool
  | Action.attemptOpen f =>
    decide ((vcam_open (fun _ _ _ => f) s).ret = 0 ∧ s.device_open_count = INT_MAX)
  | Action.release => false

/-- The call is a `release` made while `device_open_count` is 2 or more, that
is, while another session is still counted as open. -/
def releasesUnderOtherSession (s : State) : Action → Bool
  | Action.attemptOpen _ => false
  | Action.release => decide (2 ≤ s.device_open_count)

/-- No call of the sequence overflows `device_open_count`, starting from `w`. -/
def neverOverflows (w : World) (acts : List Action) : Bool :=
  holdsAtEachCall (fun s a => !counterOverflows s a) w acts

/-- Every `release` of the sequence is made while `device_open_count` is at
most 1, starting from `w`. -/
def releasesOnlyLastSession (w : World) (acts : List Action) : Bool :=
  holdsAtEachCall (fun s a => !releasesUnderOtherSession s a) w acts

/-- Invariant behind the single-binding property: between calls the mutex is
free and the live handles are exactly the one in `real_camera_file`, if any. -/
def SingleBinding (w : World) : Prop :=
  w.state.vcam_mutex = false
    ∧ liveHandles w.trace
      = if w.state.real_camera_file = NULL then [] else [w.state.real_camera_file]

/-- Invariant behind the session count: between calls the mutex is free, the
counter is a non-negative `int`, and it is at least 1 while bound. -/
def CountedBinding (s : State) : Prop :=
  s.vcam_mutex = false ∧ 0 ≤ s.device_open_count ∧ s.device_open_count ≤ INT_MAX
    ∧ (s.real_camera_file ≠ NULL → 1 ≤ s.device_open_count)

/-- Invariant of the runs without overlapping release: between calls the mutex
is free and a positive counter comes with a bound file. -/
def SessionsBound (s : State) : Prop :=
  s.vcam_mutex = false ∧ (0 < s.device_open_count → s.real_camera_file ≠ NULL)

/-! ## Concrete kernel behaviours used to instantiate the theorems -/

/-- A `filp_open` that always fails with `-ENOENT`. -/
def filpOpenNoent : String → Nat → Nat → Nat := fun _ _ _ => ERR_PTR (-2)

/-- A bound state: one session on the file at address 4096. -/
def boundState : State :=
  { real_camera_file := 4096, device_open_count := 1, vcam_mutex := false }

/-- A read environment whose camera delivers the three bytes 7, 8, 9. -/
def shortReadEnv : ReadEnv :=
  { kzalloc := fun _ => true
    kernel_read := fun _ _ => (3, [7, 8, 9])
    copy_to_user := fun _ => 0 }

/-- A file whose `mmap` returns the positive value 1. -/
def mmapReturnsOne : Nat → Option (Nat → Int) := fun _ => some (fun _ => 1)

/-- A file whose `mmap` fails with `-ENOMEM`. -/
def mmapFails : Nat → Option (Nat → Int) := fun _ => some (fun _ => -12)

/-- A `vfs_ioctl` that returns the sum of command and argument. -/
def ioctlEcho : Nat → Nat → Nat → Int := fun _ cmd arg => ((cmd + arg : Nat) : Int)

/-! ## Arithmetic of error pointers and of `int` -/

theorem toInt32_of_range (x : Int) (h1 : -2147483648 ≤ x) (h2 : x ≤ 2147483647) :
    toInt32 x = x := by
  unfold toInt32; omega

theorem PTR_ERR_of_IS_ERR (p : Nat) (h : IS_ERR p = true) :
    -4095 ≤ PTR_ERR p ∧ PTR_ERR p < 0 := by
  unfold IS_ERR MAX_ERRNO at h
  unfold PTR_ERR
  simp only [decide_eq_true_eq] at h
  split <;> omega

/-! ## Operations on an unbound proxy, and failure paths of `vcam_open` -/

/-- C1: while `real_camera_file` is `NULL`, `vcam_read`, `vcam_mmap`,
`vcam_handle_real_camera_ioctl` and `vcam_ioctl` each return `-EIO`, make no
call on the real camera, and leave the state (hence `real_camera_file` and
`device_open_count`) and the caller's buffer as they were, for all arguments. -/
theorem not_open_fails_with_EIO (s : State) (h : s.real_camera_file = NULL)
    (env : ReadEnv) (user_buffer : List Nat) (count : Nat)
    (f_op_mmap : Nat → Option (Nat → Int)) (vma : Nat)
    (vfs_ioctl : Nat → Nat → Nat → Int) (cmd arg : Nat) :
    vcam_read env s user_buffer count
        = { out := { ret := - EIO, state := s, calls := [] }, user_buffer := user_buffer }
      ∧ vcam_mmap f_op_mmap s vma = { ret := - EIO, state := s, calls := [] }
      ∧ vcam_handle_real_camera_ioctl vfs_ioctl s cmd arg
        = { ret := - EIO, state := s, calls := [] }
      ∧ vcam_ioctl vfs_ioctl s cmd arg = { ret := - EIO, state := s, calls := [] } := by
  refine ⟨?_, ?_, ?_, ?_⟩
  · simp [vcam_read, h]
  · simp [vcam_mmap, h]
  · simp [vcam_handle_real_camera_ioctl, h]
  · simp [vcam_ioctl, vcam_handle_real_camera_ioctl, h]

/-- C1 at the state after module load, with a camera that would deliver bytes. -/
theorem not_open_fails_with_EIO_witness :
    State.init.real_camera_file = NULL
      ∧ (vcam_read shortReadEnv State.init [1, 1] 2
          = { out := { ret := - EIO, state := State.init, calls := [] }, user_buffer := [1, 1] }
        ∧ vcam_mmap mmapReturnsOne State.init 7
          = { ret := - EIO, state := State.init, calls := [] }
        ∧ vcam_handle_real_camera_ioctl ioctlEcho State.init 3 4
          = { ret := - EIO, state := State.init, calls := [] }
        ∧ vcam_ioctl ioctlEcho State.init 3 4
          = { ret := - EIO, state := State.init, calls := [] }) :=
  ⟨rfl, not_open_fails_with_EIO State.init rfl shortReadEnv [1, 1] 2 mmapReturnsOne 7
    ioctlEcho 3 4⟩

/-- C2: with the mutex free and `real_camera_file = NULL`, when `filp_open`
returns an error pointer `f`, `vcam_open` calls `filp_open` once, returns
`PTR_ERR(f)` (a value from `-MAX_ERRNO` to `-1`, so nothing is lost in the
conversion to `int`) and leaves the state as it was: `real_camera_file` still
`NULL`, `device_open_count` unchanged, mutex unlocked. -/
theorem open_backend_failure (filp_open : String → Nat → Nat → Nat) (s : State)
    (hm : s.vcam_mutex = false) (hb : s.real_camera_file = NULL)
    (herr : IS_ERR (filp_open real_device_path (O_RDWR ||| O_NONBLOCK) 0) = true) :
    (vcam_open filp_open s).ret = PTR_ERR (filp_open real_device_path (O_RDWR ||| O_NONBLOCK) 0)
      ∧ -4095 ≤ (vcam_open filp_open s).ret ∧ (vcam_open filp_open s).ret < 0
      ∧ (vcam_open filp_open s).state = s
      ∧ (vcam_open filp_open s).state.real_camera_file = NULL
      ∧ (vcam_open filp_open s).state.vcam_mutex = false
      ∧ (vcam_open filp_open s).calls
        = [BackendCall.filp_open real_device_path (O_RDWR ||| O_NONBLOCK) 0
            (filp_open real_device_path (O_RDWR ||| O_NONBLOCK) 0)] := by
  have hr := PTR_ERR_of_IS_ERR _ herr
  have h32 := toInt32_of_range _ (by omega) (by omega : PTR_ERR
    (filp_open real_device_path (O_RDWR ||| O_NONBLOCK) 0) ≤ 2147483647)
  obtain ⟨rcf, cnt, mtx⟩ := s
  simp only at hm hb
  subst hm hb
  simp [vcam_open, herr, h32, hr.1, hr.2]

/-- C2 at the state after module load, `filp_open` failing with `-ENOENT`:
`vcam_open` returns `-2`. -/
theorem open_backend_failure_witness :
    State.init.vcam_mutex = false ∧ State.init.real_camera_file = NULL
      ∧ IS_ERR (filpOpenNoent real_device_path (O_RDWR ||| O_NONBLOCK) 0) = true
      ∧ (vcam_open filpOpenNoent State.init).ret = -2
      ∧ (vcam_open filpOpenNoent State.init).state = State.init :=
  ⟨rfl, rfl, by decide, by
    rw [(open_backend_failure filpOpenNoent State.init rfl rfl (by decide)).1]; decide,
    (open_backend_failure filpOpenNoent State.init rfl rfl (by decide)).2.2.2.1⟩

/-- C3: while the mutex is held, `vcam_open` returns `-EBUSY` at once: no call
on the real camera, `real_camera_file` and `device_open_count` unchanged, and
the mutex still held by its owner. -/
theorem open_busy (filp_open : String → Nat → Nat → Nat) (s : State)
    (hm : s.vcam_mutex = true) :
    vcam_open filp_open s = { ret := - EBUSY, state := s, calls := [] }
      ∧ (vcam_open filp_open s).state.vcam_mutex = true := by
  simp [vcam_open, hm]

/-- C3 at a bound state whose mutex another caller holds. -/
theorem open_busy_witness :
    ({ boundState with vcam_mutex := true } : State).vcam_mutex = true
      ∧ (vcam_open filpOpenNoent { boundState with vcam_mutex := true }
          = { ret := -16, state := { boundState with vcam_mutex := true }, calls := [] }
        ∧ (vcam_open filpOpenNoent { boundState with vcam_mutex := true }).state.vcam_mutex
          = true) :=
  ⟨rfl, open_busy filpOpenNoent { boundState with vcam_mutex := true } rfl⟩

/-! ## `vcam_release` on an unbound proxy -/

/-- C4 as stated fails: after two opens and one release `real_camera_file` is
`NULL` and `device_open_count` is 1; a further `vcam_release` in that unbound
state returns 0 but lowers `device_open_count` to 0, so the state changes. -/
theorem release_unbound_changes_count :
    run World.init [Action.attemptOpen 4096, Action.attemptOpen 4096, Action.release]
        = some { state := { real_camera_file := NULL, device_open_count := 1,
                            vcam_mutex := false },
                 trace := [BackendCall.filp_open "/dev/video0" 2050 0 4096,
                           BackendCall.filp_close 4096] }
      ∧ vcam_release { real_camera_file := NULL, device_open_count := 1, vcam_mutex := false }
        = some { ret := 0,
                 state := { real_camera_file := NULL, device_open_count := 0,
                            vcam_mutex := false },
                 calls := [] }
      ∧ ({ real_camera_file := NULL, device_open_count := 0, vcam_mutex := false } : State)
        ≠ { real_camera_file := NULL, device_open_count := 1, vcam_mutex := false } := by
  decide

/-- C4, amended: with the mutex free and `real_camera_file = NULL`,
`vcam_release` returns 0, issues no `filp_close`, leaves `real_camera_file`
`NULL` and the mutex unlocked; it leaves the whole state unchanged when
`device_open_count` is not positive, and lowers `device_open_count` by one when
it is positive. -/
theorem release_unbound (s : State) (hm : s.vcam_mutex = false)
    (hb : s.real_camera_file = NULL) (hc : s.device_open_count ≤ INT_MAX) :
    ∃ r, vcam_release s = some r ∧ r.ret = 0 ∧ r.calls = []
      ∧ r.state.real_camera_file = NULL ∧ r.state.vcam_mutex = false
      ∧ (s.device_open_count ≤ 0 → r.state = s)
      ∧ (0 < s.device_open_count → r.state.device_open_count = s.device_open_count - 1) := by
  obtain ⟨rcf, cnt, mtx⟩ := s
  simp only at hm hb hc
  subst hm hb
  unfold INT_MAX at hc
  by_cases hpos : 0 < cnt
  · have h32 := toInt32_of_range (cnt - 1) (by omega) (by omega)
    refine ⟨_, by simp only [vcam_release]; rfl, ?_⟩
    simp [hpos, h32]
  · refine ⟨_, by simp only [vcam_release]; rfl, ?_⟩
    simp [hpos]

/-- C4, amended, at the state after module load: `vcam_release` returns 0 and
changes nothing. -/
theorem release_unbound_witness :
    State.init.vcam_mutex = false ∧ State.init.real_camera_file = NULL
      ∧ State.init.device_open_count ≤ INT_MAX
      ∧ ∃ r, vcam_release State.init = some r ∧ r.ret = 0 ∧ r.calls = []
        ∧ r.state.real_camera_file = NULL ∧ r.state.vcam_mutex = false
        ∧ (State.init.device_open_count ≤ 0 → r.state = State.init)
        ∧ (0 < State.init.device_open_count
            → r.state.device_open_count = State.init.device_open_count - 1) :=
  ⟨rfl, rfl, by decide, release_unbound State.init rfl rfl (by decide)⟩

/-! ## Forwarding on a bound proxy -/

/-- C5: on a bound proxy, when `kzalloc` succeeds, `kernel_read` returns
`k = b.length ≤ count` having stored the bytes `b`, and `copy_to_user` copies
everything, `vcam_read` returns `k` (at most `count`), the first `k` bytes of
the caller's buffer are exactly `b` and the bytes after them are untouched,
`kernel_read` was called exactly once (no retry, also when `k < count`), and
the state is unchanged. -/
theorem read_returns_backend_bytes (env : ReadEnv) (s : State) (user_buffer : List Nat)
    (count : Nat) (b : List Nat)
    (hb : s.real_camera_file ≠ NULL)
    (halloc : env.kzalloc count = true)
    (hread : env.kernel_read s.real_camera_file count = ((b.length : Int), b))
    (hk : b.length ≤ count)
    (hcopy : env.copy_to_user b.length = 0) :
    (vcam_read env s user_buffer count).out.ret = (b.length : Int)
      ∧ (vcam_read env s user_buffer count).out.ret ≤ (count : Int)
      ∧ (vcam_read env s user_buffer count).user_buffer.take b.length = b
      ∧ (vcam_read env s user_buffer count).user_buffer.drop b.length
        = user_buffer.drop b.length
      ∧ (vcam_read env s user_buffer count).out.calls
        = [BackendCall.kernel_read s.real_camera_file count]
      ∧ (vcam_read env s user_buffer count).out.state = s := by
  have hnn : ¬ ((b.length : Int) < 0) := by omega
  have hle : (b.length : Int) ≤ (count : Int) := by exact_mod_cast hk
  simp [vcam_read, hb, halloc, hread, hcopy, hnn, hle, copy_to_user]

/-- C5 on a bound proxy asked for 8 bytes while the camera delivers 3. -/
theorem read_returns_backend_bytes_witness :
    boundState.real_camera_file ≠ NULL
      ∧ shortReadEnv.kzalloc 8 = true
      ∧ shortReadEnv.kernel_read boundState.real_camera_file 8
        = ((([7, 8, 9] : List Nat).length : Int), [7, 8, 9])
      ∧ ([7, 8, 9] : List Nat).length ≤ 8
      ∧ shortReadEnv.copy_to_user ([7, 8, 9] : List Nat).length = 0
      ∧ (vcam_read shortReadEnv boundState [1, 1, 1, 1, 1, 1, 1, 1] 8).out.ret = 3
      ∧ (vcam_read shortReadEnv boundState [1, 1, 1, 1, 1, 1, 1, 1] 8).user_buffer
        = [7, 8, 9, 1, 1, 1, 1, 1] :=
  ⟨by decide, rfl, rfl, by decide, rfl,
    (read_returns_backend_bytes shortReadEnv boundState [1, 1, 1, 1, 1, 1, 1, 1] 8 [7, 8, 9]
      (by decide) rfl rfl (by decide) rfl).1,
    by decide⟩

/-- C6 as stated fails: when the real file's `mmap` returns the positive value
1, `vcam_mmap` returns 0, not 1. -/
theorem mmap_positive_result_not_returned :
    boundState.real_camera_file ≠ NULL
      ∧ (mmapReturnsOne boundState.real_camera_file).isSome = true
      ∧ vcam_mmap mmapReturnsOne boundState 7
        = { ret := 0, state := boundState, calls := [BackendCall.mmap 4096 7] }
      ∧ (vcam_mmap mmapReturnsOne boundState 7).ret ≠ 1 := by
  decide

/-- C6, amended: on a bound proxy whose real file has an `mmap` operation
`real_mmap`, `vcam_mmap` calls it exactly once with the caller's `vma` and
leaves the state unchanged; it returns the result unchanged when that is
negative or zero, and returns 0 when it is positive. -/
theorem mmap_forwards (f_op_mmap : Nat → Option (Nat → Int)) (real_mmap : Nat → Int)
    (s : State) (vma : Nat)
    (hb : s.real_camera_file ≠ NULL)
    (hm : f_op_mmap s.real_camera_file = some real_mmap) :
    (vcam_mmap f_op_mmap s vma).calls = [BackendCall.mmap s.real_camera_file vma]
      ∧ (vcam_mmap f_op_mmap s vma).state = s
      ∧ (real_mmap vma ≤ 0 → (vcam_mmap f_op_mmap s vma).ret = real_mmap vma)
      ∧ (0 < real_mmap vma → (vcam_mmap f_op_mmap s vma).ret = 0) := by
  by_cases hneg : real_mmap vma < 0
  · simp [vcam_mmap, hb, hm, hneg]
    omega
  · simp [vcam_mmap, hb, hm, hneg]
    omega

/-- C6, amended, on a bound proxy whose real `mmap` fails with `-ENOMEM`. -/
theorem mmap_forwards_witness :
    boundState.real_camera_file ≠ NULL
      ∧ mmapFails boundState.real_camera_file = some (fun _ => -12)
      ∧ (vcam_mmap mmapFails boundState 7).calls = [BackendCall.mmap 4096 7]
      ∧ (vcam_mmap mmapFails boundState 7).ret = -12 :=
  ⟨by decide, rfl,
    (mmap_forwards mmapFails (fun _ => -12) boundState 7 (by decide) rfl).1,
    (mmap_forwards mmapFails (fun _ => -12) boundState 7 (by decide) rfl).2.2.1 (by decide)⟩

/-- C7: on a bound proxy, for every command and argument, `vcam_ioctl` (and
`vcam_handle_real_camera_ioctl`, which it calls) makes exactly one call
`vfs_ioctl(real_camera_file, cmd, arg)` with the caller's `cmd` and `arg`,
returns what that call returned, whatever its sign, and leaves the state
unchanged. -/
theorem ioctl_forwards (vfs_ioctl : Nat → Nat → Nat → Int) (s : State) (cmd arg : Nat)
    (hb : s.real_camera_file ≠ NULL) :
    vcam_ioctl vfs_ioctl s cmd arg
        = { ret := vfs_ioctl s.real_camera_file cmd arg, state := s,
            calls := [BackendCall.vfs_ioctl s.real_camera_file cmd arg] }
      ∧ vcam_handle_real_camera_ioctl vfs_ioctl s cmd arg
        = { ret := vfs_ioctl s.real_camera_file cmd arg, state := s,
            calls := [BackendCall.vfs_ioctl s.real_camera_file cmd arg] } := by
  constructor <;> simp [vcam_ioctl, vcam_handle_real_camera_ioctl, hb]

/-- C7 on a bound proxy with command 3 and argument 4. -/
theorem ioctl_forwards_witness :
    boundState.real_camera_file ≠ NULL
      ∧ (vcam_ioctl ioctlEcho boundState 3 4
          = { ret := ioctlEcho boundState.real_camera_file 3 4, state := boundState,
              calls := [BackendCall.vfs_ioctl boundState.real_camera_file 3 4] }
        ∧ vcam_handle_real_camera_ioctl ioctlEcho boundState 3 4
          = { ret := ioctlEcho boundState.real_camera_file 3 4, state := boundState,
              calls := [BackendCall.vfs_ioctl boundState.real_camera_file 3 4] }) :=
  ⟨by decide, ioctl_forwards ioctlEcho boundState 3 4 (by decide)⟩

/-! ## Invariants of the lifecycle -/

theorem liveHandles_append (t c : List BackendCall) :
    liveHandles (t ++ c) = c.foldl track (liveHandles t) := by
  simp [liveHandles, List.foldl_append]

theorem ne_NULL_of_contract (f : Nat) (h : filpOpenContract (Action.attemptOpen f) = true) :
    f ≠ NULL := by
  simp only [filpOpenContract, decide_eq_true_eq] at h
  exact h.1

theorem step_singleBinding (w : World) (a : Action) (h : SingleBinding w) :
    ∃ w1, step w a = some w1 ∧ SingleBinding w1 := by
  obtain ⟨⟨rcf, cnt, mtx⟩, trace⟩ := w
  obtain ⟨hm, hl⟩ := h
  simp only at hm hl
  subst hm
  cases a with
  | attemptOpen f =>
    refine ⟨_, rfl, ?_⟩
    by_cases hb : rcf = NULL
    · by_cases he : IS_ERR f = true
      · simp [SingleBinding, vcam_open, hb, he, liveHandles_append, track, hl]
      · by_cases hf : f = NULL
        · subst hf
          simp [SingleBinding, vcam_open, hb, he, liveHandles_append, track, hl]
        · simp [SingleBinding, vcam_open, hb, he, liveHandles_append, track, hl, hf]
    · simp [SingleBinding, vcam_open, hb, hl]
  | release =>
    by_cases hb : rcf = NULL
    · refine ⟨_, by simp only [step, vcam_release]; rfl, ?_⟩
      by_cases hp : 0 < cnt <;> simp [SingleBinding, hb, hl, hp]
    · refine ⟨_, by simp only [step, vcam_release]; rfl, ?_⟩
      by_cases hp : 0 < cnt <;> simp [SingleBinding, hb, hl, hp, liveHandles_append, track]

theorem run_singleBinding (acts : List Action) (w : World) (h : SingleBinding w) :
    ∃ w1, run w acts = some w1 ∧ SingleBinding w1 := by
  induction acts generalizing w with
  | nil => exact ⟨w, rfl, h⟩
  | cons a rest ih =>
    obtain ⟨w1, hs, h1⟩ := step_singleBinding w a h
    obtain ⟨w2, hr, h2⟩ := ih w1 h1
    exact ⟨w2, by simp [run, hs, hr], h2⟩

theorem vcam_open_bound (fo : String → Nat → Nat → Nat) (rcf : Nat) (cnt : Int)
    (hb : rcf ≠ NULL) :
    vcam_open fo { real_camera_file := rcf, device_open_count := cnt, vcam_mutex := false }
      = { ret := 0,
          state := { real_camera_file := rcf, device_open_count := toInt32 (cnt + 1),
                     vcam_mutex := false },
          calls := [] } := by
  simp [vcam_open, hb]

theorem vcam_open_unbound_ok (fo : String → Nat → Nat → Nat) (cnt : Int)
    (he : IS_ERR (fo real_device_path (O_RDWR ||| O_NONBLOCK) 0) = false) :
    vcam_open fo { real_camera_file := NULL, device_open_count := cnt, vcam_mutex := false }
      = { ret := 0,
          state := { real_camera_file := fo real_device_path (O_RDWR ||| O_NONBLOCK) 0,
                     device_open_count := toInt32 (cnt + 1), vcam_mutex := false },
          calls := [BackendCall.filp_open real_device_path (O_RDWR ||| O_NONBLOCK) 0
                      (fo real_device_path (O_RDWR ||| O_NONBLOCK) 0)] } := by
  simp [vcam_open, he]

theorem vcam_open_unbound_err (fo : String → Nat → Nat → Nat) (cnt : Int)
    (he : IS_ERR (fo real_device_path (O_RDWR ||| O_NONBLOCK) 0) = true) :
    (vcam_open fo { real_camera_file := NULL, device_open_count := cnt, vcam_mutex := false }).state
      = { real_camera_file := NULL, device_open_count := cnt, vcam_mutex := false } := by
  simp [vcam_open, he]

theorem vcam_release_free (rcf : Nat) (cnt : Int) :
    vcam_release { real_camera_file := rcf, device_open_count := cnt, vcam_mutex := false }
      = some { ret := 0,
               state := { real_camera_file := NULL,
                          device_open_count := if 0 < cnt then toInt32 (cnt - 1) else cnt,
                          vcam_mutex := false },
               calls := if rcf ≠ NULL then [BackendCall.filp_close rcf] else [] } := by
  by_cases hb : rcf = NULL <;> by_cases hp : 0 < cnt <;> simp [vcam_release, hb, hp]

theorem step_countedBinding (w : World) (a : Action) (h : CountedBinding w.state)
    (hno : counterOverflows w.state a = false) :
    ∃ w1, step w a = some w1 ∧ CountedBinding w1.state := by
  obtain ⟨⟨rcf, cnt, mtx⟩, trace⟩ := w
  obtain ⟨hm, h0, hmax, hbd⟩ := h
  simp only at hm h0 hmax hbd
  subst hm
  unfold INT_MAX at hmax
  cases a with
  | attemptOpen f =>
    refine ⟨_, rfl, ?_⟩
    simp only [counterOverflows, decide_eq_false_iff_not, not_and, INT_MAX] at hno
    by_cases hb : rcf = NULL
    · subst hb
      cases he : IS_ERR f with
      | true =>
        rw [vcam_open_unbound_err _ _ he]
        exact ⟨rfl, h0, hmax, hbd⟩
      | false =>
        rw [vcam_open_unbound_ok _ _ he] at hno ⊢
        have hlt : cnt ≠ 2147483647 := hno rfl
        have h32 := toInt32_of_range (cnt + 1) (by omega) (by omega)
        simp only [CountedBinding, h32, INT_MAX]
        exact ⟨trivial, by omega, by omega, fun _ => by omega⟩
    · rw [vcam_open_bound _ _ _ hb] at hno ⊢
      have hlt : cnt ≠ 2147483647 := hno rfl
      have h32 := toInt32_of_range (cnt + 1) (by omega) (by omega)
      simp only [CountedBinding, h32, INT_MAX]
      exact ⟨trivial, by omega, by omega, fun _ => by omega⟩
  | release =>
    refine ⟨_, by simp only [step, vcam_release_free]; rfl, ?_⟩
    by_cases hp : 0 < cnt
    · have h32 := toInt32_of_range (cnt - 1) (by omega) (by omega)
      simp only [CountedBinding, hp, if_true, h32, INT_MAX]
      exact ⟨trivial, by omega, by omega, fun hne => absurd rfl hne⟩
    · simp only [CountedBinding, hp, if_false, INT_MAX]
      exact ⟨trivial, h0, hmax, fun hne => absurd rfl hne⟩

theorem run_countedBinding (acts : List Action) (w : World) (h : CountedBinding w.state)
    (hno : neverOverflows w acts = true) :
    ∃ w1, run w acts = some w1 ∧ CountedBinding w1.state := by
  induction acts generalizing w with
  | nil => exact ⟨w, rfl, h⟩
  | cons a rest ih =>
    simp only [neverOverflows, holdsAtEachCall, Bool.and_eq_true, Bool.not_eq_true'] at hno
    obtain ⟨w1, hs, h1⟩ := step_countedBinding w a h hno.1
    have hrest := hno.2
    rw [hs] at hrest
    obtain ⟨w2, hr, h2⟩ := ih w1 h1 hrest
    exact ⟨w2, by simp [run, hs, hr], h2⟩

theorem step_sessionsBound (w : World) (a : Action) (h : SessionsBound w.state)
    (hc : filpOpenContract a = true) (hr : releasesUnderOtherSession w.state a = false) :
    ∃ w1, step w a = some w1 ∧ SessionsBound w1.state := by
  obtain ⟨⟨rcf, cnt, mtx⟩, trace⟩ := w
  obtain ⟨hm, hbd⟩ := h
  simp only at hm hbd
  subst hm
  cases a with
  | attemptOpen f =>
    have hf := ne_NULL_of_contract f hc
    refine ⟨_, rfl, ?_⟩
    by_cases hb : rcf = NULL
    · subst hb
      cases he : IS_ERR f with
      | true =>
        rw [vcam_open_unbound_err _ _ he]
        exact ⟨rfl, hbd⟩
      | false =>
        rw [vcam_open_unbound_ok _ _ he]
        exact ⟨rfl, fun _ => hf⟩
    · rw [vcam_open_bound _ _ _ hb]
      exact ⟨rfl, fun _ => hb⟩
  | release =>
    refine ⟨_, by simp only [step, vcam_release_free]; rfl, ?_⟩
    simp only [releasesUnderOtherSession, decide_eq_false_iff_not, not_le] at hr
    by_cases hp : 0 < cnt
    · have h32 := toInt32_of_range (cnt - 1) (by omega) (by omega)
      simp only [SessionsBound, hp, if_true, h32]
      exact ⟨trivial, fun hpos => by omega⟩
    · simp only [SessionsBound, hp, if_false]
      exact ⟨trivial, fun hpos => hpos.elim⟩

theorem run_sessionsBound (acts : List Action) (w : World) (h : SessionsBound w.state)
    (hc : acts.all filpOpenContract = true)
    (hr : releasesOnlyLastSession w acts = true) :
    ∃ w1, run w acts = some w1 ∧ SessionsBound w1.state := by
  induction acts generalizing w with
  | nil => exact ⟨w, rfl, h⟩
  | cons a rest ih =>
    simp only [List.all_cons, Bool.and_eq_true] at hc
    simp only [releasesOnlyLastSession, holdsAtEachCall, Bool.and_eq_true,
      Bool.not_eq_true'] at hr
    obtain ⟨w1, hs, h1⟩ := step_sessionsBound w a h hc.1 hr.1
    have hrest := hr.2
    rw [hs] at hrest
    obtain ⟨w2, hrun, h2⟩ := ih w1 h1 hc.2 hrest
    exact ⟨w2, by simp [run, hs, hrun], h2⟩

/-- C8: after any sequence of `vcam_open` and `vcam_release` calls from the
state after module load, whatever pointer `filp_open` answers in each call,
every call completes, the handles of the real camera opened and not yet closed
number at most one, they number one exactly when `real_camera_file` is not
`NULL` (and then the one handle is `real_camera_file`), and a `vcam_open` on a
bound proxy makes no call on the real camera, whatever `filp_open` would
answer. -/
theorem single_binding (acts : List Action) :
    ∃ w, run World.init acts = some w
      ∧ (liveHandles w.trace).length ≤ 1
      ∧ ((liveHandles w.trace).length = 1 ↔ w.state.real_camera_file ≠ NULL)
      ∧ (w.state.real_camera_file ≠ NULL → liveHandles w.trace = [w.state.real_camera_file])
      ∧ (w.state.real_camera_file ≠ NULL →
          ∀ fo : String → Nat → Nat → Nat, (vcam_open fo w.state).calls = []) := by
  obtain ⟨w, hrun, hm, hl⟩ := run_singleBinding acts World.init ⟨rfl, rfl⟩
  refine ⟨w, hrun, ?_, ?_, ?_, ?_⟩
  · rw [hl]; split <;> simp
  · rw [hl]; split <;> simp_all
  · intro hb
    rw [hl]; simp [hb]
  · intro hb fo
    obtain ⟨⟨rcf, cnt, mtx⟩, trace⟩ := w
    simp only at hm hb
    subst hm
    rw [vcam_open_bound fo rcf cnt hb]

/-- C9 as stated fails: three opens followed by one release leave
`device_open_count = 2 > 0` with `real_camera_file = NULL`. -/
theorem sessions_without_binding :
    run World.init [Action.attemptOpen 4096, Action.attemptOpen 4096,
        Action.attemptOpen 4096, Action.release]
        = some { state := { real_camera_file := NULL, device_open_count := 2,
                            vcam_mutex := false },
                 trace := [BackendCall.filp_open "/dev/video0" 2050 0 4096,
                           BackendCall.filp_close 4096] }
      ∧ ¬ (0 < ({ real_camera_file := NULL, device_open_count := 2,
                  vcam_mutex := false } : State).device_open_count
            → ({ real_camera_file := NULL, device_open_count := 2,
                 vcam_mutex := false } : State).real_camera_file ≠ NULL) := by
  decide

/-- C9, amended: after any sequence of `vcam_open` and `vcam_release` calls from
the state after module load in which `filp_open` answers by an error pointer or
a non-null file pointer and every `vcam_release` is called while
`device_open_count` is at most 1, `real_camera_file` is not `NULL` whenever
`device_open_count > 0`. -/
theorem sessions_imply_binding (acts : List Action)
    (hc : acts.all filpOpenContract = true)
    (hr : releasesOnlyLastSession World.init acts = true) :
    ∃ w, run World.init acts = some w
      ∧ (0 < w.state.device_open_count → w.state.real_camera_file ≠ NULL) := by
  obtain ⟨w, hrun, _, hb⟩ := run_sessionsBound acts World.init ⟨rfl, fun h => absurd h (by decide)⟩ hc hr
  exact ⟨w, hrun, hb⟩

/-- C9, amended, on an open, its release, a failed open and two opens. -/
theorem sessions_imply_binding_witness :
    [Action.attemptOpen 4096, Action.release, Action.attemptOpen 18446744073709551614,
        Action.attemptOpen 8192, Action.attemptOpen 8192].all filpOpenContract = true
      ∧ releasesOnlyLastSession World.init
          [Action.attemptOpen 4096, Action.release, Action.attemptOpen 18446744073709551614,
            Action.attemptOpen 8192, Action.attemptOpen 8192] = true
      ∧ ∃ w, run World.init
          [Action.attemptOpen 4096, Action.release, Action.attemptOpen 18446744073709551614,
            Action.attemptOpen 8192, Action.attemptOpen 8192] = some w
        ∧ (0 < w.state.device_open_count → w.state.real_camera_file ≠ NULL) :=
  ⟨by decide, by decide, sessions_imply_binding _ (by decide) (by decide)⟩

/-- C10: after any sequence of `vcam_open` and `vcam_release` calls from the
state after module load (whatever `filp_open` answers) in which no call
increments `device_open_count` at `INT_MAX`, `real_camera_file` not being
`NULL` implies `device_open_count ≥ 1`. -/
theorem binding_implies_session (acts : List Action)
    (hno : neverOverflows World.init acts = true) :
    ∃ w, run World.init acts = some w
      ∧ (w.state.real_camera_file ≠ NULL → 1 ≤ w.state.device_open_count) := by
  obtain ⟨w, hrun, _, _, _, hb⟩ :=
    run_countedBinding acts World.init ⟨rfl, by decide, by decide, fun h => absurd rfl h⟩ hno
  exact ⟨w, hrun, hb⟩

/-- C10 on two opens, a release and a further open: the proxy ends bound with
`device_open_count = 2`. -/
theorem binding_implies_session_witness :
    neverOverflows World.init
        [Action.attemptOpen 4096, Action.attemptOpen 4096, Action.release,
          Action.attemptOpen 8192] = true
      ∧ ∃ w, run World.init
          [Action.attemptOpen 4096, Action.attemptOpen 4096, Action.release,
            Action.attemptOpen 8192] = some w
        ∧ (w.state.real_camera_file ≠ NULL → 1 ≤ w.state.device_open_count) :=
  ⟨by decide, binding_implies_session _ (by decide)⟩

end Vcam
